import Mathlib

/-!
Shallow embedding of `hapt.py` (oxan/hapt), the hostapd presence-tracking
daemon, together with theorems settling the frozen claims about it.

The embedding models the pure decision logic of the script.  External
effects (socket system calls, inotify, the Home Assistant HTTP call) are
represented by explicit action traces and by parameters carrying the
replies the environment would produce; machine state that the script
mutates (the `clients` dict, the `fds` dict) is threaded explicitly.
Python exceptions are modelled with `Except`.
-/

namespace Hapt

/-! ### Decimal rendering

`connect_hostapd_socket` builds the local socket path with the format
string `'/var/run/hapt-%s-%d'`.  `dec_digits` embeds the `%d` conversion:
the usual base-10 rendering of a non-negative integer, written with an
explicit fuel argument (structural recursion) so that it reduces in the
kernel. -/

def dec_digits_core : Nat → Nat → List Char → List Char
  | 0, _, acc => acc
  | fuel + 1, n, acc =>
    if n < 10 then Nat.digitChar n :: acc
    else dec_digits_core fuel (n / 10) (Nat.digitChar (n % 10) :: acc)

def dec_digits (n : Nat) : List Char :=
  dec_digits_core (n + 1) n []

/-- Decimal value of a digit string; left inverse of `dec_digits`. -/
def dec_val (l : List Char) : Nat :=
  l.foldl (fun a c => 10 * a + (c.toNat - 48)) 0

/-! ### Control-socket client (`connect_hostapd_socket`, `disconnect_hostapd_socket`)

Lines 88-109 of hapt.py.  Socket system calls are recorded as a trace of
`SockOp` actions; the reply hostapd sends to the handshake command is a
parameter.  A raised `ValueError` is an `Except.error` carrying the
message. -/

inductive SockOp : Type
  | bind (path : String)
  | lchown (path : String)
  | connectTo (path : String)
  | send (msg : String)
  | recv
  | close
deriving DecidableEq, Repr

/-- `local_address = '/var/run/hapt-%s-%d' % (interface, time.time() % 86400)`
(line 90).  `t` is the integer value returned by `time.time()`. -/
def local_address (interface : String) (t : Nat) : String :=
  "/var/run/hapt-" ++ interface ++ "-" ++ String.mk (dec_digits (t % 86400))

/-- `remote_address = '/var/run/hostapd/%s' % interface` (line 89). -/
def remote_address (interface : String) : String :=
  "/var/run/hostapd/" ++ interface

/-- Lines 88-102: bind a local datagram socket at `local_address`, chown
it, connect to the radio's control socket, send `ATTACH`, and require the
exact reply `OK\n`; any other reply raises a `ValueError` (the socket is
not touched again before the raise).  `disk` is the set of unix-socket
paths currently present in the filesystem: `sock.bind` raises an `OSError`
(`EADDRINUSE`) when the local path already exists, which happens on a
collision with a path bound earlier at the same `time % 86400` — the
script never unlinks the paths it creates, so a successful bind leaves
`local_address interface t` on disk (callers pass `disk` accordingly). -/
def connect_hostapd_socket (interface : String) (t : Nat) (disk : List String)
    (attachReply : String) : List SockOp × Except String Unit :=
  if disk.contains (local_address interface t) then
    ([SockOp.bind (local_address interface t)], Except.error "OSError: EADDRINUSE")
  else
    let ops := [SockOp.bind (local_address interface t),
                SockOp.lchown (local_address interface t),
                SockOp.connectTo (remote_address interface),
                SockOp.send "ATTACH", SockOp.recv]
    if attachReply = "OK\n" then (ops, Except.ok ())
    else (ops, Except.error ("Received invalid response on ATTACH from hostapd: " ++ attachReply))

/-- Lines 104-109: send `DETACH`, require the exact reply `OK\n` (raising a
`ValueError` otherwise, before reaching `sock.close()`), then close the
socket. -/
def disconnect_hostapd_socket (detachReply : String) :
    List SockOp × Except String Unit :=
  if detachReply = "OK\n" then
    ([SockOp.send "DETACH", SockOp.recv, SockOp.close], Except.ok ())
  else
    ([SockOp.send "DETACH", SockOp.recv],
     Except.error ("Received invalid response on DETACH from hostapd: " ++ detachReply))

/-! ### Event-frame decoding (`WirelessDevicesTracker.handle_message`)

Lines 238-243.  Messages are modelled as `List Char`. -/

/-- `str.find`: index of the first occurrence, `none` when absent (Python
returns `-1` there). -/
def str_find (c : Char) : List Char → Option Nat
  | [] => none
  | x :: xs => if x = c then some 0 else (str_find c xs).map (· + 1)

/-- `message[message.find('>')+1:]` (line 239): when `'>'` occurs at index
`i`, everything up to and including it is dropped; when it is absent,
`find` returns `-1`, so the slice starts at `-1 + 1 = 0` and is the whole
message. -/
def strip_priority (message : List Char) : List Char :=
  match str_find '>' message with
  | some i => message.drop (i + 1)
  | none => message

/-- Python `str.split(sep)` for a single-character separator: keeps empty
fields, and the result is never the empty list. -/
def py_split (sep : Char) : List Char → List (List Char)
  | [] => [[]]
  | c :: rest =>
    match py_split sep rest with
    | [] => [[]]
    | w :: ws => if c = sep then [] :: w :: ws else (c :: w) :: ws

/-- Outcome of `handle_message`: which tracker method is invoked with which
MAC argument.  `indexError` models the `IndexError` Python would raise on a
recognized event name with no argument (`components[1]`). -/
inductive HostapdEvent : Type
  | connected (mac : List Char)
  | disconnected (mac : List Char)
  | ignored
  | indexError
deriving DecidableEq, Repr

/-- Lines 240-243: match `components[0]` against the two recognized event
names; anything else falls through silently. -/
def dispatch_components : List (List Char) → HostapdEvent
  | [] => HostapdEvent.indexError
  | c0 :: rest =>
    if c0 = "AP-STA-CONNECTED".data then
      match rest with
      | mac :: _ => HostapdEvent.connected mac
      | [] => HostapdEvent.indexError
    else if c0 = "AP-STA-DISCONNECTED".data then
      match rest with
      | mac :: _ => HostapdEvent.disconnected mac
      | [] => HostapdEvent.indexError
    else HostapdEvent.ignored

/-- Lines 238-243: `components = message[message.find('>')+1:].split(' ')`
followed by the dispatch on `components[0]`. -/
def handle_message (message : List Char) : HostapdEvent :=
  dispatch_components (py_split ' ' (strip_priority message))

/-! ### Presence state machine (`WirelessDevicesTracker`)

Lines 211-275.  The relevant configuration values (already parsed, see the
spec's configuration-store collaborator) are carried in `Config`; the
`self.clients` dict is an association list from MAC to the list of
interfaces in its set (Python `set` contents, kept duplicate-free by the
`set.add` embedding); the Home Assistant call is recorded as a `Notif`. -/

structure Config : Type where
  /-- `track_mac_address` config entry: `none` when the key is absent. -/
  track_mac_address : Option (List String)
  /-- `wifi_interfaces` config entry: `none` when the key is absent. -/
  wifi_interfaces : Option (List String)
  /-- `int(self.config['consider_home_connect'])`. -/
  consider_home_connect : Nat
  /-- `int(self.config['consider_home_disconnect'])`. -/
  consider_home_disconnect : Nat
deriving DecidableEq, Repr

/-- One `call_home_assistant(mac, consider_home)` invocation (line 220):
the notification handed to the sink. -/
inductive Notif : Type
  | see (mac : String) (consider_home : Nat)
deriving DecidableEq, Repr

/-- The `self.clients` dict: MAC to associated-interface set. -/
abbrev Clients := List (String × List String)

/-- Python dict lookup on the association list. -/
def dict_get (m : Clients) (k : String) : Option (List String) :=
  match m with
  | [] => none
  | (k', v) :: rest => if k' = k then some v else dict_get rest k

/-- Python dict assignment: replace the entry in place, or append a new one. -/
def dict_set (m : Clients) (k : String) (v : List String) : Clients :=
  match m with
  | [] => [(k, v)]
  | (k', v') :: rest => if k' = k then (k, v) :: rest else (k', v') :: dict_set rest k v

/-- The guard `'track_mac_address' in self.config and mac not in
self.config['track_mac_address']` (lines 246 and 255): true exactly when
the key is present and `mac` is not in its value. -/
def tracked_filtered (cfg : Config) (mac : String) : Bool :=
  match cfg.track_mac_address with
  | some allow => !(allow.contains mac)
  | none => false

/-- Python `set.add`: insert only when not already present. -/
def py_set_add (s : List String) (x : String) : List String :=
  if s.contains x then s else s ++ [x]

/-- Python `set.remove`: raises `KeyError` when the element is absent. -/
def py_set_remove (s : List String) (x : String) : Except String (List String) :=
  if s.contains x then Except.ok (s.erase x) else Except.error "KeyError: element not in set"

/-- Lines 245-252 (`on_connect`): after the MAC filter, ensure an entry for
`mac` exists, add the interface to its set, and call Home Assistant with
the `consider_home_connect` value — unconditionally, on every accepted
connect event. -/
def on_connect (cfg : Config) (clients : Clients) (interface mac : String) :
    Clients × List Notif :=
  if tracked_filtered cfg mac then (clients, [])
  else
    let cur := (dict_get clients mac).getD []
    let cur' := py_set_add cur interface
    (dict_set clients mac cur', [Notif.see mac cfg.consider_home_connect])

/-- Lines 254-261 (`on_disconnect`): after the MAC filter,
`self.clients[mac].remove(interface)` — a `KeyError` when `mac` has no
entry or the interface is not in its set — then notify Home Assistant with
the `consider_home_disconnect` value when the set became empty.  The
emptied entry is left in the dict. -/
def on_disconnect (cfg : Config) (clients : Clients) (interface mac : String) :
    Except String (Clients × List Notif) :=
  if tracked_filtered cfg mac then Except.ok (clients, [])
  else
    match dict_get clients mac with
    | none => Except.error "KeyError: mac not in clients"
    | some cur =>
      match py_set_remove cur interface with
      | Except.error e => Except.error e
      | Except.ok cur' =>
        let clients' := dict_set clients mac cur'
        if cur'.length = 0 then
          Except.ok (clients', [Notif.see mac cfg.consider_home_disconnect])
        else Except.ok (clients', [])

/-- Lines 272-275: the inner loop of `oneshot` over the clients reported
associated on one interface — the `track_mac_address` truthiness filter,
then `on_connect`. -/
def oneshot_macs (cfg : Config) (interface : String) :
    List String → Clients → Clients × List Notif
  | [], clients => (clients, [])
  | mac :: rest, clients =>
    if (match cfg.track_mac_address with
        | some l => !l.isEmpty && !(l.contains mac)
        | none => false) then
      oneshot_macs cfg interface rest clients
    else
      let (clients1, ns1) := on_connect cfg clients interface mac
      let (clients2, ns2) := oneshot_macs cfg interface rest clients1
      (clients2, ns1 ++ ns2)

/-- Lines 263-275 (`oneshot`): iterate over the control-socket directory
listing `dir`, skipping the `global` entry and interfaces excluded by the
`wifi_interfaces` truthiness filter; `assoc i` is the device list the
one-shot association query returns for interface `i`. -/
def oneshot_scan (cfg : Config) (assoc : String → List String) :
    List String → Clients → Clients × List Notif
  | [], clients => (clients, [])
  | interface :: rest, clients =>
    if interface = "global" then oneshot_scan cfg assoc rest clients
    else if (match cfg.wifi_interfaces with
             | some l => !l.isEmpty && !(l.contains interface)
             | none => false) then
      oneshot_scan cfg assoc rest clients
    else
      let (clients1, ns1) := oneshot_macs cfg interface (assoc interface) clients
      let (clients2, ns2) := oneshot_scan cfg assoc rest clients1
      (clients2, ns1 ++ ns2)

/-! ### Interface watcher (`InterfaceWatcher`)

Lines 126-207.  The `self.fds` dict maps a descriptor number to its
`(kind, interface, socket)` tuple, embedded as `FdKind`; `poll`
registration always accompanies the dict update in the source, so the dict
alone models the registered set.  Fresh descriptor numbers are drawn from
a `next_fd` counter. -/

inductive FdKind : Type
  | hostapd (interface : String)
  | inotify
deriving DecidableEq, Repr

structure Watcher : Type where
  /-- Constructor argument `include_interfaces` (line 127). -/
  include_interfaces : Option (List String)
  /-- The `self.fds` dict / the set registered with `self.poll`. -/
  fds : List (Nat × FdKind)
  /-- Source of fresh descriptor numbers for newly opened sockets. -/
  next_fd : Nat
  /-- `self.inotify_wd_parent`. -/
  inotify_wd_parent : Nat
  /-- `self.inotify_wd_control`. -/
  inotify_wd_control : Nat
deriving DecidableEq, Repr

/-- The guard `self.include_interfaces and interface not in
self.include_interfaces` (line 135): Python truthiness, so an empty list
filters nothing. -/
def include_filtered (include_interfaces : Option (List String)) (interface : String) : Bool :=
  match include_interfaces with
  | some allow => !allow.isEmpty && !(allow.contains interface)
  | none => false

/-- Lookup in the `self.fds` dict. -/
def fd_lookup (fds : List (Nat × FdKind)) (fd : Nat) : Option FdKind :=
  match fds with
  | [] => none
  | (fd', k) :: rest => if fd' = fd then some k else fd_lookup rest fd

/-- `del self.fds[fd]`. -/
def fd_del (fds : List (Nat × FdKind)) (fd : Nat) : List (Nat × FdKind) :=
  fds.filter (fun e => decide (e.1 ≠ fd))

/-- Number of live hostapd clients for `interface` in the descriptor table. -/
def count_interface (fds : List (Nat × FdKind)) (interface : String) : Nat :=
  (fds.filter (fun e => decide (e.2 = FdKind.hostapd interface))).length

/-- Lines 134-141 (`add_interface`): apply the `include_interfaces` filter,
open and attach a control socket (in the filesystem state `disk`, with
handshake reply `attachReply`), and on success record and register the new
descriptor.  There is no check whether the interface already has an entry.
A failed attach (bind collision or bad acknowledgement) raises out of the
method, leaving the table untouched. -/
def add_interface (w : Watcher) (interface : String) (t : Nat) (disk : List String)
    (attachReply : String) : Watcher × List SockOp × Except String Unit :=
  if include_filtered w.include_interfaces interface then (w, [], Except.ok ())
  else
    match connect_hostapd_socket interface t disk attachReply with
    | (ops, Except.error e) => (w, ops, Except.error e)
    | (ops, Except.ok ()) =>
      ({ w with fds := w.fds ++ [(w.next_fd, FdKind.hostapd interface)],
                next_fd := w.next_fd + 1 }, ops, Except.ok ())

/-- Lines 148-155 (`remove_interface_fd`): try the DETACH handshake —
whose `ValueError` on a bad reply is caught and only logged (for the
inotify entry the socket slot is `None`, so the call raises immediately
and contributes no socket operations) — then unconditionally unregister
the descriptor and delete its table entry.  Callers only pass descriptors
present in the table. -/
def remove_interface_fd (w : Watcher) (fd : Nat) (detachReply : String) :
    Watcher × List SockOp :=
  match fd_lookup w.fds fd with
  | none => (w, [])
  | some kind =>
    let ops := match kind with
      | FdKind.hostapd _ => (disconnect_hostapd_socket detachReply).1
      | FdKind.inotify => []
    ({ w with fds := fd_del w.fds fd }, ops)

/-- Iteration inside `remove_interface` (lines 143-146), over a snapshot of
the table entries: every `('hostapd', interface, _)` entry is removed via
`remove_interface_fd`. -/
def remove_interface_go (detachReply interface : String) :
    Watcher → List (Nat × FdKind) → Watcher × List SockOp
  | w, [] => (w, [])
  | w, (fd, FdKind.hostapd i) :: rest =>
    if i = interface then
      let (w1, ops1) := remove_interface_fd w fd detachReply
      let (w2, ops2) := remove_interface_go detachReply interface w1 rest
      (w2, ops1 ++ ops2)
    else remove_interface_go detachReply interface w rest
  | w, (_, FdKind.inotify) :: rest => remove_interface_go detachReply interface w rest

/-- Lines 143-146 (`remove_interface`). -/
def remove_interface (w : Watcher) (interface : String) (detachReply : String) :
    Watcher × List SockOp :=
  remove_interface_go detachReply interface w w.fds

def IN_CREATE : Nat := 0x00000100
def IN_DELETE : Nat := 0x00000200

/-- Watch-table side effects of `handle_inotify`. -/
inductive WatchAct : Type
  | add_watch (path : String)
  | rm_watch (wd : Nat)
deriving DecidableEq, Repr

/-- Lines 158-169 (`handle_inotify`), after `decode_inotify_event` has
yielded `(wd, mask, name)`: the outer-watch branch manages the inner watch
(`new_wd` is the watch id the kernel returns for a fresh inner watch); the
inner-watch branch attaches or detaches the named interface.  An error
raised by `add_interface` propagates. -/
def handle_inotify (w : Watcher) (wd mask : Nat) (name : String)
    (t new_wd : Nat) (disk : List String) (attachReply detachReply : String) :
    Watcher × List WatchAct × Except String Unit :=
  if wd = w.inotify_wd_parent ∧ name = "hostapd" then
    let w1 := if mask &&& IN_CREATE ≠ 0 then { w with inotify_wd_control := new_wd } else w
    let acts1 := if mask &&& IN_CREATE ≠ 0 then [WatchAct.add_watch "/var/run/hostapd"] else []
    let acts2 := if mask &&& IN_DELETE ≠ 0 then [WatchAct.rm_watch w1.inotify_wd_control] else []
    (w1, acts1 ++ acts2, Except.ok ())
  else if wd = w.inotify_wd_control then
    if mask &&& IN_CREATE ≠ 0 then
      match add_interface w name t disk attachReply with
      | (w1, _, Except.error e) => (w1, [], Except.error e)
      | (w1, _, Except.ok ()) =>
        if mask &&& IN_DELETE ≠ 0 then ((remove_interface w1 name detachReply).1, [], Except.ok ())
        else (w1, [], Except.ok ())
    else if mask &&& IN_DELETE ≠ 0 then
      ((remove_interface w name detachReply).1, [], Except.ok ())
    else (w, [], Except.ok ())
  else (w, [], Except.ok ())

/-- The enumeration loop of `setup` (lines 179-181): attach every entry of
the directory listing except `global`, aborting if an attach raises; each
successful bind leaves its local path on disk for the later iterations. -/
def setup_attach (t : Nat) (attachReply : String) :
    Watcher → List String → List String → Watcher × Except String Unit
  | w, _, [] => (w, Except.ok ())
  | w, disk, interface :: rest =>
    if interface ≠ "global" then
      match add_interface w interface t disk attachReply with
      | (w1, _, Except.error e) => (w1, Except.error e)
      | (w1, _, Except.ok ()) =>
        setup_attach t attachReply w1 (disk ++ [local_address interface t]) rest
    else setup_attach t attachReply w disk rest

/-- Lines 171-181 (`setup`): record the inotify watches, register the
inotify descriptor, then enumerate and attach the existing interfaces. -/
def setup (w : Watcher) (inotify_fd wd_parent wd_control : Nat)
    (dir : List String) (disk : List String) (t : Nat) (attachReply : String) :
    Watcher × Except String Unit :=
  let w1 := { w with inotify_wd_parent := wd_parent,
                     inotify_wd_control := wd_control,
                     fds := w.fds ++ [(inotify_fd, FdKind.inotify)] }
  setup_attach t attachReply w1 disk dir

def POLLIN : Nat := 1
def POLLERR : Nat := 8
def POLLHUP : Nat := 16

/-- What the event loop does with one ready descriptor. -/
inductive LoopAct : Type
  | removed (fd : Nat)
  | handled (fd : Nat) (interface : String) (frame : String)
  | inotify_read (fd : Nat)
deriving DecidableEq, Repr

/-- Lines 187-199, the body of `run` for one `(fd, event)` pair of the
ready list.  `recvResult fd` is what `fd_obj.recv(1024)` returns for that
descriptor (`Except.error` when the call raises).  The returned `Bool` is
true when an exception escaped the body, which the `try` around the loop
turns into loop termination.  The kind/name tuple is unpacked before the
hang-up branch, and the hang-up branch does not `continue`, so the read
dispatch still runs on a just-removed descriptor. -/
def process_fd (w : Watcher) (recvResult : Nat → Except String String)
    (detachReply : String) (fd : Nat) (event : Nat) :
    Watcher × List LoopAct × Bool :=
  match fd_lookup w.fds fd with
  | none => (w, [], false)
  | some kind =>
    let hup := (event &&& (POLLHUP ||| POLLERR)) ≠ 0
    let w1 := if hup then (remove_interface_fd w fd detachReply).1 else w
    let acts1 := if hup then [LoopAct.removed fd] else []
    match kind with
    | FdKind.hostapd name =>
      match recvResult fd with
      | Except.ok frame => (w1, acts1 ++ [LoopAct.handled fd name frame], false)
      | Except.error _ => (w1, acts1, true)
    | FdKind.inotify => (w1, acts1 ++ [LoopAct.inotify_read fd], false)

/-- The `for fd, event in self.poll.poll()` loop over one wake-up's ready
list: an exception escaping one iteration aborts the remaining iterations
(and, through the `try` at line 185, ends the `while` loop — `run`
returns). -/
def process_ready (recvResult : Nat → Except String String) (detachReply : String) :
    Watcher → List (Nat × Nat) → Watcher × List LoopAct × Bool
  | w, [] => (w, [], false)
  | w, (fd, ev) :: rest =>
    match process_fd w recvResult detachReply fd ev with
    | (w1, acts, true) => (w1, acts, true)
    | (w1, acts, false) =>
      let (w2, acts2, b) := process_ready recvResult detachReply w1 rest
      (w2, acts ++ acts2, b)

/-! ### Helper lemmas -/

theorem dec_digits_core_append (fuel : Nat) :
    ∀ n acc, dec_digits_core fuel n acc = dec_digits_core fuel n [] ++ acc := by
  induction fuel with
  | zero => intro n acc; simp [dec_digits_core]
  | succ f ih =>
    intro n acc
    by_cases h : n < 10
    · simp [dec_digits_core, h]
    · simp only [dec_digits_core, if_neg h]
      rw [ih (n / 10) (Nat.digitChar (n % 10) :: acc),
          ih (n / 10) (Nat.digitChar (n % 10) :: [])]
      simp

theorem digitChar_val (d : Nat) (h : d < 10) : (Nat.digitChar d).toNat - 48 = d := by
  interval_cases d <;> rfl

theorem dec_val_core (fuel : Nat) :
    ∀ n, n < fuel → dec_val (dec_digits_core fuel n []) = n := by
  induction fuel with
  | zero => intro n h; omega
  | succ f ih =>
    intro n h
    by_cases h10 : n < 10
    · simp only [dec_digits_core, if_pos h10, dec_val, List.foldl]
      rw [digitChar_val n h10]
      omega
    · simp only [dec_digits_core, if_neg h10]
      rw [dec_digits_core_append]
      unfold dec_val
      rw [List.foldl_append]
      have hdiv : n / 10 < f := by
        have h1 : n / 10 < n := Nat.div_lt_self (by omega) (by omega)
        omega
      have := ih (n / 10) hdiv
      unfold dec_val at this
      simp only [List.foldl, this]
      rw [digitChar_val (n % 10) (Nat.mod_lt n (by omega))]
      omega

theorem dec_digits_injective {a b : Nat} (h : dec_digits a = dec_digits b) : a = b := by
  have ha := dec_val_core (a + 1) a (Nat.lt_succ_self a)
  have hb := dec_val_core (b + 1) b (Nat.lt_succ_self b)
  unfold dec_digits at h
  rw [← ha, ← hb, h]

theorem str_find_eq_none {c : Char} {l : List Char} (h : c ∉ l) : str_find c l = none := by
  induction l with
  | nil => rfl
  | cons x xs ih =>
    simp only [List.mem_cons, not_or] at h
    simp [str_find, Ne.symm h.1, ih h.2]

theorem strip_priority_no_marker {msg : List Char} (h : '>' ∉ msg) :
    strip_priority msg = msg := by
  simp [strip_priority, str_find_eq_none h]

theorem str_find_marker {p : List Char} (hp : '>' ∉ p) (msg : List Char) :
    str_find '>' (p ++ '>' :: msg) = some p.length := by
  induction p with
  | nil => simp [str_find]
  | cons x xs ih =>
    simp only [List.mem_cons, not_or] at hp
    simp [str_find, Ne.symm hp.1, ih hp.2]

theorem strip_priority_marker {p : List Char} (hp : '>' ∉ p) (msg : List Char) :
    strip_priority (p ++ '>' :: msg) = msg := by
  simp only [strip_priority, str_find_marker hp msg]
  have : p ++ '>' :: msg = (p ++ ['>']) ++ msg := by simp
  rw [this, show p.length + 1 = (p ++ ['>']).length by simp, List.drop_left]

theorem dict_get_dict_set_self (m : Clients) (k : String) (v : List String) :
    dict_get (dict_set m k v) k = some v := by
  induction m with
  | nil => simp [dict_get, dict_set]
  | cons e rest ih =>
    by_cases h : e.1 = k
    · simp [dict_get, dict_set, h]
    · simp [dict_get, dict_set, h, ih]

theorem count_interface_append (l1 l2 : List (Nat × FdKind)) (i : String) :
    count_interface (l1 ++ l2) i = count_interface l1 i + count_interface l2 i := by
  simp [count_interface, List.filter_append]

theorem count_interface_single_hostapd (fd : Nat) (j i : String) :
    count_interface [(fd, FdKind.hostapd j)] i = if j = i then 1 else 0 := by
  by_cases h : j = i <;> simp [count_interface, h, FdKind.hostapd.injEq]

theorem count_interface_single_inotify (fd : Nat) (i : String) :
    count_interface [(fd, FdKind.inotify)] i = 0 := by
  simp [count_interface]

theorem add_interface_ok_count {w : Watcher} {i : String} (t : Nat) {disk : List String}
    (hf : include_filtered w.include_interfaces i = false)
    (hb : local_address i t ∉ disk) :
    (add_interface w i t disk "OK\n").1.fds = w.fds ++ [(w.next_fd, FdKind.hostapd i)]
    ∧ (add_interface w i t disk "OK\n").1.include_interfaces = w.include_interfaces := by
  simp [add_interface, hf, connect_hostapd_socket, hb]

theorem add_interface_other_count {w : Watcher} {i j : String} (t : Nat)
    (disk : List String) (r : String) (hne : i ≠ j) :
    count_interface ((add_interface w i t disk r).1).fds j = count_interface w.fds j := by
  unfold add_interface connect_hostapd_socket
  by_cases hf : include_filtered w.include_interfaces i
  · simp [hf]
  · by_cases hb : local_address i t ∈ disk
    · simp [hf, hb]
    · by_cases hr : r = "OK\n"
      · simp [hf, hb, hr, count_interface_append, count_interface_single_hostapd, hne]
      · simp [hf, hb, hr]

theorem remove_interface_go_no_match (d i : String) :
    ∀ (l : List (Nat × FdKind)) (w : Watcher),
      (∀ e ∈ l, e.2 ≠ FdKind.hostapd i) → remove_interface_go d i w l = (w, []) := by
  intro l
  induction l with
  | nil => intro w _; rfl
  | cons e rest ih =>
    intro w h
    match e with
    | (fd, FdKind.hostapd j) =>
      have hj : j ≠ i := by
        intro hji
        exact (h (fd, FdKind.hostapd j) (by simp)) (by rw [hji])
      simp only [remove_interface_go, if_neg hj]
      exact ih w (fun e he => h e (List.mem_cons_of_mem _ he))
    | (fd, FdKind.inotify) =>
      simp only [remove_interface_go]
      exact ih w (fun e he => h e (List.mem_cons_of_mem _ he))

theorem setup_attach_count (t : Nat) (r : String) :
    ∀ (dir : List String) (w : Watcher) (disk : List String),
      count_interface ((setup_attach t r w disk dir).1).fds "global"
        = count_interface w.fds "global" := by
  intro dir
  induction dir with
  | nil => intro w disk; rfl
  | cons i rest ih =>
    intro w disk
    by_cases hg : i ≠ "global"
    · simp only [setup_attach, if_pos hg]
      rcases hadd : add_interface w i t disk r with ⟨w1, ops, res⟩
      have hcnt : count_interface w1.fds "global" = count_interface w.fds "global" := by
        have := add_interface_other_count (w := w) t disk r hg
        rw [hadd] at this
        exact this
      match res with
      | Except.error e => simpa using hcnt
      | Except.ok () => rw [ih w1]; exact hcnt
    · simp only [setup_attach, if_neg hg]
      exact ih w disk

/-! ### Claim C1 -/

/-- C1 counterexample: with no device filter and `aa:aa` already associated
on `wlan0` (a non-empty set), a connect event on `wlan1` still emits a
notification — the claim that "arrived" is emitted only when the set was
empty before the add is false on the code. -/
theorem C1_counterexample :
    dict_get [("aa:aa", ["wlan0"])] "aa:aa" = some ["wlan0"]
    ∧ (on_connect ⟨none, none, 300, 180⟩ [("aa:aa", ["wlan0"])] "wlan1" "aa:aa").2
        = [Notif.see "aa:aa" 300] :=
  ⟨rfl, rfl⟩

/-- C1 amended: `on_connect` emits the notification (with the configured
`consider_home_connect` value) on every connect event that passes the MAC
filter, regardless of whether the device's associated-radio set was empty
before the radio is added. -/
theorem C1_connect_always_notifies (cfg : Config) (clients : Clients) (interface mac : String)
    (h : tracked_filtered cfg mac = false) :
    (on_connect cfg clients interface mac).2 = [Notif.see mac cfg.consider_home_connect] := by
  simp [on_connect, h]

/-- C1 witness: the amended theorem evaluated on a roaming connect. -/
theorem C1_witness :
    (on_connect ⟨none, none, 300, 180⟩ [("aa:aa", ["wlan0"])] "wlan1" "aa:aa").2
      = [Notif.see "aa:aa" 300] :=
  C1_connect_always_notifies ⟨none, none, 300, 180⟩ [("aa:aa", ["wlan0"])] "wlan1" "aa:aa" rfl

/-! ### Claim C2 -/

/-- C2 counterexample: a disconnect for a device with no entry at all, and
one for a radio not in the device's set, both raise a `KeyError` instead of
being a no-op. -/
theorem C2_counterexample :
    on_disconnect ⟨none, none, 300, 180⟩ [] "wlan0" "aa:aa"
      = Except.error "KeyError: mac not in clients"
    ∧ on_disconnect ⟨none, none, 300, 180⟩ [("aa:aa", ["wlan1"])] "wlan0" "aa:aa"
      = Except.error "KeyError: element not in set" :=
  ⟨rfl, rfl⟩

/-- C2 amended: when the MAC passes the device filter and the radio is not
in the device's associated set (including when the device has no entry),
`on_disconnect` raises a `KeyError` — either from the `self.clients[mac]`
lookup or from `set.remove` — rather than completing as a no-op. -/
theorem C2_disconnect_unknown_raises (cfg : Config) (clients : Clients) (interface mac : String)
    (hf : tracked_filtered cfg mac = false)
    (h : ∀ s, dict_get clients mac = some s → interface ∉ s) :
    ∃ e, on_disconnect cfg clients interface mac = Except.error e := by
  simp only [on_disconnect, hf, Bool.false_eq_true, if_false]
  cases hg : dict_get clients mac with
  | none => exact ⟨_, rfl⟩
  | some s =>
    have hc := h s hg
    simp [py_set_remove, hc]

/-- C2 witness: the amended theorem evaluated with an empty presence map. -/
theorem C2_witness :
    ∃ e, on_disconnect ⟨none, none, 300, 180⟩ [] "wlan0" "aa:aa" = Except.error e :=
  C2_disconnect_unknown_raises ⟨none, none, 300, 180⟩ [] "wlan0" "aa:aa" rfl
    (fun s hs => by simp [dict_get] at hs)

/-! ### Claim C3 -/

/-- C3 counterexample: the final disconnect of `aa:aa` leaves the device as
a key of the presence mapping with an empty set, so the "key iff set
non-empty" invariant fails after that operation. -/
theorem C3_counterexample :
    on_disconnect ⟨none, none, 300, 180⟩ [("aa:aa", ["wlan0"])] "wlan0" "aa:aa"
      = Except.ok ([("aa:aa", [])], [Notif.see "aa:aa" 180])
    ∧ dict_get [("aa:aa", ([] : List String))] "aa:aa" = some [] :=
  ⟨rfl, rfl⟩

/-- C3 amended: a disconnect that empties a device's associated-radio set
emits the "departed" notification but retains the device's entry in the
mapping as an empty set — the entry is not removed, so a device identifier
can be a key whose set is empty. -/
theorem C3_emptying_disconnect_keeps_entry (cfg : Config) (clients : Clients)
    (interface mac : String) (s : List String)
    (hf : tracked_filtered cfg mac = false)
    (hget : dict_get clients mac = some s)
    (hmem : interface ∈ s)
    (hemp : s.erase interface = []) :
    on_disconnect cfg clients interface mac
      = Except.ok (dict_set clients mac [], [Notif.see mac cfg.consider_home_disconnect])
    ∧ dict_get (dict_set clients mac []) mac = some [] := by
  constructor
  · simp [on_disconnect, hf, hget, py_set_remove, hmem, hemp]
  · exact dict_get_dict_set_self clients mac []

/-- C3 witness: the amended theorem evaluated on the final disconnect of a
single-radio device. -/
theorem C3_witness :
    on_disconnect ⟨none, none, 300, 180⟩ [("aa:aa", ["wlan0"])] "wlan0" "aa:aa"
      = Except.ok (dict_set [("aa:aa", ["wlan0"])] "aa:aa" [], [Notif.see "aa:aa" 180])
    ∧ dict_get (dict_set [("aa:aa", ["wlan0"])] "aa:aa" []) "aa:aa" = some [] :=
  C3_emptying_disconnect_keeps_entry ⟨none, none, 300, 180⟩ [("aa:aa", ["wlan0"])]
    "wlan0" "aa:aa" ["wlan0"] rfl rfl (by decide) rfl

/-! ### Claim C8 -/

/-- C8 counterexample: two attach invocations for the same radio exactly one
day apart (`time.time()` values 0 and 86400) produce the identical local
socket path, because the path embeds only `time % 86400`. -/
theorem C8_counterexample :
    local_address "wlan0" 0 = local_address "wlan0" 86400 ∧ (0 : Nat) ≠ 86400 :=
  ⟨rfl, by decide⟩

/-- C8 amended: the local endpoint path determines and is determined by the
invocation time modulo 86400 — two invocations for the same radio collide
exactly when their `time.time()` values agree modulo 86400 (e.g. a whole
number of days apart, or within the same second), and are unique otherwise. -/
theorem C8_path_unique_iff_same_time_of_day (interface : String) (t1 t2 : Nat) :
    local_address interface t1 = local_address interface t2 ↔ t1 % 86400 = t2 % 86400 := by
  constructor
  · intro h
    have hd := congrArg String.data h
    simp only [local_address, String.data_append] at hd
    exact dec_digits_injective (List.append_cancel_left hd)
  · intro h
    simp [local_address, h]

/-! ### Claim C9 -/

/-- C9: a frame with no `>` priority marker is parsed from its first
character (`find` returns `-1`, so the slice starts at index 0): it is
dispatched exactly as the split of the whole message, a marked copy of the
same body is processed identically, and an unrecognized first token is
silently ignored. -/
theorem C9_unmarked_message_parsed_whole (msg : List Char) (h : '>' ∉ msg) :
    handle_message msg = dispatch_components (py_split ' ' msg)
    ∧ (∀ p : List Char, '>' ∉ p → handle_message (p ++ '>' :: msg) = handle_message msg)
    ∧ (∀ c0 cs, py_split ' ' msg = c0 :: cs →
        c0 ≠ "AP-STA-CONNECTED".data → c0 ≠ "AP-STA-DISCONNECTED".data →
        handle_message msg = HostapdEvent.ignored) := by
  refine ⟨?_, ?_, ?_⟩
  · simp [handle_message, strip_priority_no_marker h]
  · intro p hp
    simp [handle_message, strip_priority_marker hp, strip_priority_no_marker h]
  · intro c0 cs hsplit h1 h2
    simp [handle_message, strip_priority_no_marker h, hsplit, dispatch_components, h1, h2]

/-- C9 witness: the theorem evaluated on an unmarked
`AP-STA-CONNECTED` line and its `<3>`-marked copy. -/
theorem C9_witness :
    handle_message "AP-STA-CONNECTED aa:bb".data
      = dispatch_components (py_split ' ' "AP-STA-CONNECTED aa:bb".data)
    ∧ handle_message ('<' :: '3' :: '>' :: "AP-STA-CONNECTED aa:bb".data)
      = handle_message "AP-STA-CONNECTED aa:bb".data :=
  ⟨(C9_unmarked_message_parsed_whole "AP-STA-CONNECTED aa:bb".data (by decide)).1,
   (C9_unmarked_message_parsed_whole "AP-STA-CONNECTED aa:bb".data (by decide)).2.1
     ['<', '3'] (by decide)⟩

/-! ### Claim C4 -/

/-- C4 counterexample: attaching `wlan0` twice on a fresh watcher, one
second apart (so the second bind uses a fresh local path even though the
first one is still on disk), leaves two live control-socket clients for
that radio in the descriptor table, not one — `add_interface` has no
already-attached check. -/
theorem C4_counterexample :
    count_interface ((add_interface (add_interface ⟨none, [], 0, 0, 1⟩ "wlan0" 0 [] "OK\n").1
        "wlan0" 1 [local_address "wlan0" 0] "OK\n").1).fds "wlan0" = 2 := by
  decide

/-- C4 amended: attaching a radio that is already attached is not a no-op.
When the second attach happens at a time whose local path is fresh
(different `time % 86400`), it opens and registers a second live client,
so two clients result; when its local path collides with one already on
disk (same second, or a stale path — the script never unlinks them), the
bind raises `OSError` and the attach fails with no table change, an error
rather than a silent no-op.  Detaching a radio with no registered client
is indeed a no-op. -/
theorem C4_double_attach_two_clients_detach_noop (w : Watcher) (interface : String)
    (t1 t2 : Nat) (disk : List String) (reply d : String)
    (hf : include_filtered w.include_interfaces interface = false) :
    (local_address interface t1 ∉ disk →
      local_address interface t2 ∉ disk ++ [local_address interface t1] →
      count_interface ((add_interface (add_interface w interface t1 disk "OK\n").1
          interface t2 (disk ++ [local_address interface t1]) "OK\n").1).fds interface
        = count_interface w.fds interface + 2)
    ∧ (∀ (disk2 : List String) (t3 : Nat), local_address interface t3 ∈ disk2 →
        add_interface w interface t3 disk2 reply
          = (w, [SockOp.bind (local_address interface t3)],
             Except.error "OSError: EADDRINUSE"))
    ∧ (count_interface w.fds interface = 0 →
        remove_interface w interface d = (w, [])) := by
  refine ⟨?_, ?_, ?_⟩
  · intro hb1 hb2
    obtain ⟨hfds1, hinc1⟩ := add_interface_ok_count (w := w) t1 hf hb1
    have hf2 : include_filtered
        (add_interface w interface t1 disk "OK\n").1.include_interfaces interface = false := by
      rw [hinc1]; exact hf
    obtain ⟨hfds2, _⟩ := add_interface_ok_count t2 hf2 hb2
    rw [hfds2, hfds1]
    simp [count_interface_append, count_interface]
  · intro disk2 t3 hb
    simp [add_interface, connect_hostapd_socket, hf, hb]
  · intro h0
    unfold remove_interface
    apply remove_interface_go_no_match
    intro e he hc
    have hnil : List.filter (fun e => decide (e.2 = FdKind.hostapd interface)) w.fds = [] := by
      unfold count_interface at h0
      exact List.length_eq_zero.mp h0
    have := List.filter_eq_nil_iff.mp hnil e he
    simp [hc] at this

/-- C4 witness: the amended theorem evaluated on a watcher holding only the
inotify descriptor — a fresh-path double attach one second apart, a
same-path collision, and a detach of an unattached radio. -/
theorem C4_witness :
    count_interface ((add_interface (add_interface ⟨none, [(9, FdKind.inotify)], 0, 0, 1⟩
        "wlan0" 0 [] "OK\n").1 "wlan0" 1 ([] ++ [local_address "wlan0" 0]) "OK\n").1).fds "wlan0"
      = count_interface [(9, FdKind.inotify)] "wlan0" + 2
    ∧ add_interface ⟨none, [(9, FdKind.inotify)], 0, 0, 1⟩ "wlan0" 86400
        [local_address "wlan0" 0] "OK\n"
      = (⟨none, [(9, FdKind.inotify)], 0, 0, 1⟩, [SockOp.bind (local_address "wlan0" 86400)],
         Except.error "OSError: EADDRINUSE")
    ∧ remove_interface ⟨none, [(9, FdKind.inotify)], 0, 0, 1⟩ "wlan0" "OK\n"
      = (⟨none, [(9, FdKind.inotify)], 0, 0, 1⟩, []) := by
  have h := C4_double_attach_two_clients_detach_noop ⟨none, [(9, FdKind.inotify)], 0, 0, 1⟩
    "wlan0" 0 1 [] "OK\n" "OK\n" rfl
  exact ⟨h.1 (by decide) (by decide),
         h.2.1 [local_address "wlan0" 0] 86400 (by decide),
         h.2.2 rfl⟩

/-! ### Claim C5 -/

/-- C5 counterexample: an attach acknowledged with `ERROR\n` raises and
registers nothing, but the trace of socket operations contains no `close`
— the half-open local socket is leaked, not closed before the error
returns. -/
theorem C5_counterexample :
    (add_interface ⟨none, [], 0, 0, 1⟩ "wlan0" 0 [] "ERROR\n").1 = ⟨none, [], 0, 0, 1⟩
    ∧ (add_interface ⟨none, [], 0, 0, 1⟩ "wlan0" 0 [] "ERROR\n").2.2
        = Except.error "Received invalid response on ATTACH from hostapd: ERROR\n"
    ∧ SockOp.close ∉ (add_interface ⟨none, [], 0, 0, 1⟩ "wlan0" 0 [] "ERROR\n").2.1 := by
  refine ⟨rfl, rfl, ?_⟩
  decide

/-- C5 amended: when the bind succeeds (fresh local path) and the ATTACH
acknowledgement is anything other than `OK\n`, the attach fails with a
protocol error and registers no descriptor (the table is untouched), but
the half-open local socket is not closed before the error is returned — no
`close` operation occurs. -/
theorem C5_failed_attach_no_registration_socket_leaked (w : Watcher) (interface : String)
    (t : Nat) (disk : List String) (reply : String)
    (hf : include_filtered w.include_interfaces interface = false)
    (hb : local_address interface t ∉ disk)
    (hr : reply ≠ "OK\n") :
    (add_interface w interface t disk reply).1 = w
    ∧ (add_interface w interface t disk reply).2.2
        = Except.error ("Received invalid response on ATTACH from hostapd: " ++ reply)
    ∧ SockOp.close ∉ (add_interface w interface t disk reply).2.1 := by
  simp [add_interface, connect_hostapd_socket, hf, hb, hr]

/-- C5 witness: the amended theorem evaluated on an `ERROR\n`
acknowledgement. -/
theorem C5_witness :
    (add_interface ⟨none, [], 0, 0, 1⟩ "wlan0" 3 [] "ERROR\n").1 = ⟨none, [], 0, 0, 1⟩
    ∧ (add_interface ⟨none, [], 0, 0, 1⟩ "wlan0" 3 [] "ERROR\n").2.2
        = Except.error ("Received invalid response on ATTACH from hostapd: " ++ "ERROR\n")
    ∧ SockOp.close ∉ (add_interface ⟨none, [], 0, 0, 1⟩ "wlan0" 3 [] "ERROR\n").2.1 :=
  C5_failed_attach_no_registration_socket_leaked ⟨none, [], 0, 0, 1⟩ "wlan0" 3 [] "ERROR\n"
    rfl (by decide) (by decide)

/-! ### Claim C6 -/

/-- C6 counterexample: removing a client whose DETACH is acknowledged with
`ERROR\n` swallows the error and unregisters the descriptor, but performs
no `close` — the descriptor is not unconditionally released. -/
theorem C6_counterexample :
    remove_interface_fd ⟨none, [(7, FdKind.hostapd "wlan0")], 8, 0, 1⟩ 7 "ERROR\n"
      = (⟨none, [], 8, 0, 1⟩, [SockOp.send "DETACH", SockOp.recv])
    ∧ SockOp.close ∉
        (remove_interface_fd ⟨none, [(7, FdKind.hostapd "wlan0")], 8, 0, 1⟩ 7 "ERROR\n").2 := by
  refine ⟨rfl, ?_⟩
  decide

/-- C6 amended: for an attached client, a failed DETACH acknowledgement is
swallowed (only logged) and the descriptor is unconditionally unregistered
and deleted from the table, but `close` runs only when the acknowledgement
is exactly `OK\n` — on failure the raised error skips the close, so the
socket is not released. -/
theorem C6_detach_error_swallowed_close_only_on_ok (w : Watcher) (fd : Nat)
    (name reply : String)
    (h : fd_lookup w.fds fd = some (FdKind.hostapd name)) :
    (remove_interface_fd w fd reply).1.fds = fd_del w.fds fd
    ∧ (SockOp.close ∈ (remove_interface_fd w fd reply).2 ↔ reply = "OK\n") := by
  constructor
  · simp [remove_interface_fd, h]
  · simp only [remove_interface_fd, h]
    unfold disconnect_hostapd_socket
    by_cases hr : reply = "OK\n" <;> simp [hr]

/-- C6 witness: the amended theorem evaluated on a failed acknowledgement. -/
theorem C6_witness :
    (remove_interface_fd ⟨none, [(7, FdKind.hostapd "wlan0")], 8, 0, 1⟩ 7 "ERROR\n").1.fds
      = fd_del [(7, FdKind.hostapd "wlan0")] 7
    ∧ (SockOp.close ∈
        (remove_interface_fd ⟨none, [(7, FdKind.hostapd "wlan0")], 8, 0, 1⟩ 7 "ERROR\n").2
       ↔ "ERROR\n" = "OK\n") :=
  C6_detach_error_swallowed_close_only_on_ok ⟨none, [(7, FdKind.hostapd "wlan0")], 8, 0, 1⟩
    7 "wlan0" "ERROR\n" rfl

/-! ### Claim C7 -/

/-- C7 counterexample: a hostapd descriptor reporting `POLLHUP` is removed
but then still read in the same iteration (the `handled` action follows the
`removed` action); and when that read raises, the whole loop terminates and
the other ready descriptor of the same wake-up is never processed. -/
theorem C7_counterexample :
    process_fd ⟨none, [(3, FdKind.hostapd "wlan0")], 5, 0, 1⟩ (fun _ => Except.ok "") "OK\n"
        3 POLLHUP
      = (⟨none, [], 5, 0, 1⟩, [LoopAct.removed 3, LoopAct.handled 3 "wlan0" ""], false)
    ∧ process_ready (fun fd => if fd = 3 then Except.error "ECONNREFUSED" else Except.ok "x")
        "OK\n" ⟨none, [(3, FdKind.hostapd "wlan0"), (4, FdKind.hostapd "wlan1")], 5, 0, 1⟩
        [(3, POLLHUP), (4, POLLIN)]
      = (⟨none, [(4, FdKind.hostapd "wlan1")], 5, 0, 1⟩, [LoopAct.removed 3], true) := by
  refine ⟨?_, ?_⟩ <;> decide

/-- C7 amended: on a hang-up/error condition the descriptor is unregistered
and its client torn down, but the loop body then still dispatches a read on
that same descriptor: if the read returns a frame, the frame is handled and
the remaining ready descriptors are processed from the post-removal state;
if the read raises, the exception escapes and terminates the loop,
skipping every remaining ready descriptor. -/
theorem C7_hup_teardown_but_extra_read (w : Watcher)
    (recvResult : Nat → Except String String) (d : String) (fd : Nat) (name : String)
    (ev : Nat)
    (h : fd_lookup w.fds fd = some (FdKind.hostapd name))
    (hev : (ev &&& (POLLHUP ||| POLLERR)) ≠ 0) :
    (process_fd w recvResult d fd ev).1 = (remove_interface_fd w fd d).1
    ∧ (∀ frame, recvResult fd = Except.ok frame →
        (process_fd w recvResult d fd ev).2
          = ([LoopAct.removed fd, LoopAct.handled fd name frame], false))
    ∧ (∀ e, recvResult fd = Except.error e →
        (process_fd w recvResult d fd ev).2 = ([LoopAct.removed fd], true))
    ∧ (∀ e rest, recvResult fd = Except.error e →
        process_ready recvResult d w ((fd, ev) :: rest)
          = ((remove_interface_fd w fd d).1, [LoopAct.removed fd], true))
    ∧ (∀ frame rest, recvResult fd = Except.ok frame →
        process_ready recvResult d w ((fd, ev) :: rest)
          = ((process_ready recvResult d (remove_interface_fd w fd d).1 rest).1,
             [LoopAct.removed fd, LoopAct.handled fd name frame]
               ++ (process_ready recvResult d (remove_interface_fd w fd d).1 rest).2.1,
             (process_ready recvResult d (remove_interface_fd w fd d).1 rest).2.2)) := by
  have hfd : ∀ r, recvResult fd = r →
      process_fd w recvResult d fd ev
        = ((remove_interface_fd w fd d).1,
           match r with
           | Except.ok frame => ([LoopAct.removed fd, LoopAct.handled fd name frame], false)
           | Except.error _ => ([LoopAct.removed fd], true)) := by
    intro r hr
    simp only [process_fd, h, if_pos hev, hr]
    cases r <;> rfl
  refine ⟨?_, ?_, ?_, ?_, ?_⟩
  · rw [hfd (recvResult fd) rfl]
  · intro frame hr; rw [hfd _ hr]
  · intro e hr; rw [hfd _ hr]
  · intro e rest hr
    simp only [process_ready, hfd _ hr]
  · intro frame rest hr
    simp only [process_ready, hfd _ hr]

/-- C7 witness: the amended theorem evaluated on a single hung-up hostapd
descriptor. -/
theorem C7_witness :
    (process_fd ⟨none, [(3, FdKind.hostapd "wlan0")], 5, 0, 1⟩ (fun _ => Except.ok "x")
        "OK\n" 3 POLLHUP).1
      = (remove_interface_fd ⟨none, [(3, FdKind.hostapd "wlan0")], 5, 0, 1⟩ 3 "OK\n").1 :=
  (C7_hup_teardown_but_extra_read ⟨none, [(3, FdKind.hostapd "wlan0")], 5, 0, 1⟩
    (fun _ => Except.ok "x") "OK\n" 3 "wlan0" POLLHUP rfl (by decide)).1

/-! ### Claim C10 -/

/-- C10: with no interface allow-list, an inner-watch create notification
for `global` goes through the attach path and registers a client for
`global` — the `global` exclusion is applied only by the startup
enumerations: `setup` never changes the number of `global` clients, and
`oneshot` skips the `global` directory entry entirely. -/
theorem C10_global_skipped_only_at_startup (w : Watcher) (mask t new_wd : Nat)
    (disk : List String) (dreply : String)
    (hinc : w.include_interfaces = none)
    (hb : local_address "global" t ∉ disk)
    (hc : mask &&& IN_CREATE ≠ 0) (hd : mask &&& IN_DELETE = 0) :
    count_interface ((handle_inotify w w.inotify_wd_control mask "global" t new_wd
        disk "OK\n" dreply).1).fds "global"
      = count_interface w.fds "global" + 1
    ∧ (∀ (w' : Watcher) (ifd wdp wdc : Nat) (dir : List String) (disk' : List String)
          (t' : Nat) (r' : String),
        count_interface ((setup w' ifd wdp wdc dir disk' t' r').1).fds "global"
          = count_interface w'.fds "global")
    ∧ (∀ (cfg : Config) (assoc : String → List String) (rest : List String)
          (clients : Clients),
        oneshot_scan cfg assoc ("global" :: rest) clients
          = oneshot_scan cfg assoc rest clients) := by
  refine ⟨?_, ?_, ?_⟩
  · have hfil : include_filtered w.include_interfaces "global" = false := by
      rw [hinc]; rfl
    obtain ⟨hfds, _⟩ := add_interface_ok_count (w := w) (i := "global") t hfil hb
    have hok : (add_interface w "global" t disk "OK\n").2.2 = Except.ok () := by
      simp [add_interface, hfil, connect_hostapd_socket, hb]
    rcases hadd : add_interface w "global" t disk "OK\n" with ⟨w1, ops, res⟩
    rw [hadd] at hfds hok
    have hres : res = Except.ok () := hok
    subst hres
    have hstep : (handle_inotify w w.inotify_wd_control mask "global" t new_wd
        disk "OK\n" dreply).1 = w1 := by
      simp [handle_inotify, hadd, hc, hd]
    rw [hstep, hfds]
    simp [count_interface_append, count_interface_single_hostapd]
  · intro w' ifd wdp wdc dir disk' t' r'
    unfold setup
    rw [setup_attach_count]
    simp [count_interface_append, count_interface_single_inotify]
  · intro cfg assoc rest clients
    simp [oneshot_scan]

/-- C10 witness: the theorem evaluated on a create event for `global`
arriving on the inner watch. -/
theorem C10_witness :
    count_interface ((handle_inotify ⟨none, [], 0, 10, 11⟩ 11 IN_CREATE "global" 5 0
        [] "OK\n" "OK\n").1).fds "global"
      = count_interface ([] : List (Nat × FdKind)) "global" + 1 :=
  (C10_global_skipped_only_at_startup ⟨none, [], 0, 10, 11⟩ IN_CREATE 5 0 [] "OK\n"
    rfl (by decide) (by decide) (by decide)).1

end Hapt
